import Mathlib

/-!
Verification of the safety-gate control plane of seealln-rs
(src/seealln-rs/src/hands.rs), as a shallow embedding.

Modelling conventions:
- The monotonic clock (Rust Instant) is a natural number of milliseconds;
  every operation that reads the clock takes the current instant as an
  explicit parameter.  The two clock reads inside a single
  consume_action call (one inside is_armed, one for the rate window)
  are modelled as the same instant.
- Instant::duration_since saturates at zero, so it is Nat subtraction.
- Environment-sourced configuration (SEEALLN_HANDS_MAX_ACTIONS,
  SEEALLN_HANDS_WINDOW_MS, defaults 20 and 10000) is passed as explicit
  parameters, covering every configuration value.
- Rust i32 values are Int together with explicit saturation at the i32
  bounds where the source uses saturating_add / saturating_sub; Rust's
  Ord::clamp, which panics when the lower bound exceeds the upper one,
  returns an Option (none = panic).
- HTTP handlers are functions from their request data (already past
  deserialization, which is out of scope) and the current state to a
  status code, a payload and the new state.
-/

namespace Seealln

/-! ## i32 saturating arithmetic (hands.rs lines 46-48) -/

def i32min : Int := -2147483648

def i32max : Int := 2147483647

def satI32 (v : Int) : Int := max i32min (min v i32max)

def satAdd (a b : Int) : Int := satI32 (a + b)

def satSub (a b : Int) : Int := satI32 (a - b)

/-- Rust Ord::clamp on i32: panics (none) when lo > hi, otherwise
projects v into [lo, hi]. -/
def clampI32 (v lo hi : Int) : Option Int :=
  if lo ≤ hi then some (max lo (min v hi)) else none

/-! ## ScopeRect (hands.rs lines 34-54) -/

structure ScopeRect where
  x : Int
  y : Int
  w : Int
  h : Int
deriving DecidableEq

/-- hands.rs lines 43-49: min is the corner, max is corner + extent - 1
computed with saturating i32 arithmetic, then each coordinate is passed
to Rust clamp (which panics when min > max, hence the Option). -/
def ScopeRect.clamp_point (r : ScopeRect) (px py : Int) : Option (Int × Int) :=
  match clampI32 px r.x (satSub (satAdd r.x r.w) 1),
        clampI32 py r.y (satSub (satAdd r.y r.h) 1) with
  | some cx, some cy => some (cx, cy)
  | _, _ => none

/-! ## HandsInner state (hands.rs lines 19-32) -/

structure HandsInner where
  armed_until : Option Nat
  token : Option String
  window_start : Option Nat
  window_actions : Nat
  killed : Bool
  scope : Option ScopeRect
deriving DecidableEq

/-- Default::default() for HandsInner: the state at process start. -/
def initState : HandsInner :=
  { armed_until := none, token := none, window_start := none,
    window_actions := 0, killed := false, scope := none }

/-- hands.rs lines 61-63. -/
def HandsInner.is_killed (s : HandsInner) : Bool := s.killed

/-- hands.rs lines 65-72. -/
def HandsInner.kill (s : HandsInner) : HandsInner :=
  { s with
    killed := true
    armed_until := none
    token := none
    window_start := none
    window_actions := 0 }

/-- hands.rs lines 74-77. -/
def HandsInner.reset_kill (s : HandsInner) : HandsInner :=
  { s with killed := false }

/-- hands.rs lines 79-82. -/
def HandsInner.set_scope (sc : Option ScopeRect) (s : HandsInner) : HandsInner :=
  { s with scope := sc }

/-- hands.rs lines 84-86. -/
def HandsInner.get_scope (s : HandsInner) : Option ScopeRect := s.scope

/-- hands.rs lines 88-95. -/
def HandsInner.is_armed (now : Nat) (tok : String) (s : HandsInner) : Bool :=
  match s.armed_until, s.token with
  | some u, some t => decide (now ≤ u) && (t == tok)
  | _, _ => false

/-- hands.rs lines 97-101. -/
def HandsInner.arm (now ttl : Nat) (tok : String) (s : HandsInner) : HandsInner :=
  { s with armed_until := some (now + ttl), token := some tok }

/-- hands.rs lines 103-109. -/
def HandsInner.disarm (s : HandsInner) : HandsInner :=
  { s with
    armed_until := none
    token := none
    window_start := none
    window_actions := 0 }

/-- hands.rs lines 111-147.  maxActions and windowMs are the
environment-sourced configuration (defaults 20 and 10000); now is the
current monotonic instant.  Returns the Result together with the state
after the call. -/
def HandsInner.consume_action (maxActions windowMs now : Nat) (tok : String)
    (s : HandsInner) : Except String Unit × HandsInner :=
  if s.killed then (Except.error "killed", s)
  else if !(s.is_armed now tok) then (Except.error "not armed", s)
  else
    let reset :=
      match s.window_start with
      | none => true
      | some t0 => decide (windowMs < now - t0)
    let s1 := if reset then { s with window_start := some now, window_actions := 0 } else s
    if s1.window_actions ≥ maxActions then (Except.error "rate limited", s1)
    else (Except.ok (), { s1 with window_actions := s1.window_actions + 1 })

/-! ## HTTP-boundary helpers (hands.rs lines 150-170) -/

/-- hands.rs lines 150-163: allowRemote is SEEALLN_ALLOW_REMOTE=1,
hasXff is presence of the x-forwarded-for header. -/
def require_local_only (allowRemote hasXff : Bool) : Except (Nat × String) Unit :=
  if allowRemote then Except.ok ()
  else if hasXff then Except.error (403, "proxied requests not allowed")
  else Except.ok ()

/-- hands.rs lines 165-170: the token is the string "t" followed by the
elapsed-nanoseconds reading of a freshly created Instant, a
nondeterministic timing input passed in explicitly. -/
def gen_token (elapsedNanos : Nat) : String := "t" ++ toString elapsedNanos

/-- Rust u64 clamp (total, since the bounds are constant and ordered). -/
def clampNat (v lo hi : Nat) : Nat := max lo (min v hi)

/-- hands.rs line 186: params.ttl_ms.unwrap_or(30000).clamp(5000, 300000). -/
def effective_ttl (ttlMs : Option Nat) : Nat :=
  clampNat (ttlMs.getD 30000) 5000 300000

/-- hands.rs lines 177-191: the arm handler.  Returns ((status, payload),
new state) where the payload on success is the token and the effective
ttl echoed in the response body. -/
def hands_arm (allowRemote hasXff : Bool) (ttlMs : Option Nat)
    (now elapsedNanos : Nat) (s : HandsInner) :
    (Nat × Option (String × Nat)) × HandsInner :=
  match require_local_only allowRemote hasXff with
  | Except.error e => ((e.1, none), s)
  | Except.ok _ =>
    let ttl := effective_ttl ttlMs
    let token := gen_token elapsedNanos
    ((200, some (token, ttl)), s.arm now ttl token)

/-- hands.rs lines 289-295 model of eq_ignore_ascii_case on chars. -/
def asciiToLower (c : Char) : Char :=
  if 'A' ≤ c ∧ c ≤ 'Z' then Char.ofNat (c.toNat + 32) else c

/-- Rust str::eq_ignore_ascii_case. -/
def eq_ignore_ascii_case (a b : String) : Bool :=
  a.data.map asciiToLower == b.data.map asciiToLower

/-- hands.rs lines 216-220: the x-seealln-confirm header (none when the
header is absent or not valid UTF-8) compared case-insensitively with
"yes", defaulting to false. -/
def confirm_header (hdr : Option String) : Bool :=
  match hdr with
  | some v => eq_ignore_ascii_case v "yes"
  | none => false

/-- hands.rs lines 210-231: the safety_reset handler. -/
def safety_reset (allowRemote hasXff : Bool) (hdr : Option String)
    (s : HandsInner) : Nat × HandsInner :=
  match require_local_only allowRemote hasXff with
  | Except.error e => (e.1, s)
  | Except.ok _ =>
    if !(confirm_header hdr) then (428, s)
    else (200, s.reset_kill)

/-- hands.rs lines 246-267: the scope_set handler. -/
def scope_set (allowRemote hasXff : Bool) (reqScope : Option ScopeRect)
    (s : HandsInner) : Nat × HandsInner :=
  match require_local_only allowRemote hasXff with
  | Except.error e => (e.1, s)
  | Except.ok _ =>
    match reqScope with
    | some r =>
      if r.w ≤ 0 ∨ r.h ≤ 0 then (400, s)
      else (200, HandsInner.set_scope reqScope s)
    | none => (200, HandsInner.set_scope none s)

/-! ## Post-kill event traces (for the absorbing-kill claim) -/

/-- Operations that may be attempted after a kill: re-arming and further
consume_action attempts. -/
inductive PostKillEvent where
  | armEv (now ttl : Nat) (tok : String)
  | consumeEv (maxA winMs now : Nat) (tok : String)

def applyEvent (s : HandsInner) (e : PostKillEvent) : HandsInner :=
  match e with
  | PostKillEvent.armEv now ttl tok => s.arm now ttl tok
  | PostKillEvent.consumeEv maxA winMs now tok =>
      (s.consume_action maxA winMs now tok).2

def applyEvents (es : List PostKillEvent) (s : HandsInner) : HandsInner :=
  es.foldl applyEvent s

/-! ## Helper lemmas -/

lemma killed_after_event (s : HandsInner) (e : PostKillEvent)
    (h : s.killed = true) : (applyEvent s e).killed = true := by
  cases e with
  | armEv now ttl tok => simpa [applyEvent, HandsInner.arm] using h
  | consumeEv maxA winMs now tok =>
      simp [applyEvent, HandsInner.consume_action, h]

lemma killed_after_events (es : List PostKillEvent) (s : HandsInner)
    (h : s.killed = true) : (applyEvents es s).killed = true := by
  induction es generalizing s with
  | nil => exact h
  | cons e es ih => exact ih (applyEvent s e) (killed_after_event s e h)

/-! ## C1 -/

/-- C1: the Killed state is absorbing for action consumption: from any
prior state, after kill(), every consume_action fails with the "killed"
error, however many arm() calls and consume_action attempts happen in
between. -/
theorem kill_absorbing (s : HandsInner) (es : List PostKillEvent)
    (maxA winMs now : Nat) (tok : String) :
    ((applyEvents es s.kill).consume_action maxA winMs now tok).1
      = Except.error "killed" := by
  have h : (applyEvents es s.kill).killed = true :=
    killed_after_events es s.kill rfl
  simp [HandsInner.consume_action, h]

/-- Concrete instance of kill_absorbing: killed, then re-armed with a
valid token, consume_action still fails with "killed". -/
theorem kill_absorbing_witness :
    ((applyEvents [PostKillEvent.armEv 1 30000 "T"] initState.kill).consume_action
        20 10000 5 "T").1 = Except.error "killed" :=
  kill_absorbing initState [PostKillEvent.armEv 1 30000 "T"] 20 10000 5 "T"

/-! ## C10 -/

/-- C10: kill() and reset_kill() leave the scope rectangle unchanged
(while kill clears the arming and rate-window fields). -/
theorem kill_reset_preserve_scope (s : HandsInner) :
    s.kill.get_scope = s.get_scope
    ∧ s.reset_kill.get_scope = s.get_scope
    ∧ s.kill.armed_until = none ∧ s.kill.token = none
    ∧ s.kill.window_start = none ∧ s.kill.window_actions = 0 :=
  ⟨rfl, rfl, rfl, rfl, rfl, rfl⟩

/-! ## C2 -/

/-- C2 counterexample: is_armed does not consult the killed flag, so a
state that is killed and then re-armed (arm does not check the kill
flag) reports is_armed = true for the fresh token while killed = true.
This refutes the clause that is_armed is false whenever the state is
killed, even when arm() was called after kill(). -/
theorem is_armed_killed_cex :
    ((initState.kill.arm 10 5000 "tok").killed = true)
    ∧ HandsInner.is_armed 11 "tok" (initState.kill.arm 10 5000 "tok") = true :=
  ⟨rfl, rfl⟩

/-- C2 amended: is_armed(token) is true iff the current monotonic time
is at most armed_until and the supplied token equals the stored token —
independently of the killed flag; immediately after kill() (with no
intervening arm) it is false, since kill clears the arming fields. -/
theorem is_armed_iff (s : HandsInner) (now : Nat) (tok : String) :
    (HandsInner.is_armed now tok s = true ↔
      ∃ u, s.armed_until = some u ∧ s.token = some tok ∧ now ≤ u)
    ∧ HandsInner.is_armed now tok s.kill = false := by
  constructor
  · unfold HandsInner.is_armed
    cases hau : s.armed_until with
    | none => simp
    | some u =>
      cases ht : s.token with
      | none => simp
      | some t =>
        simp only [Bool.and_eq_true, decide_eq_true_eq, beq_iff_eq,
          Option.some.injEq]
        constructor
        · rintro ⟨h1, h2⟩
          exact ⟨u, rfl, h2, h1⟩
        · rintro ⟨u2, hu2, ht2, h2⟩
          exact ⟨by omega, ht2⟩
  · rfl

/-- Concrete instance of is_armed_iff: an armed, unexpired state with a
matching token reports armed; after kill it does not. -/
theorem is_armed_iff_witness :
    HandsInner.is_armed 3 "T" (initState.arm 0 2000 "T") = true
    ∧ HandsInner.is_armed 3 "T" (initState.arm 0 2000 "T").kill = false :=
  ⟨(is_armed_iff (initState.arm 0 2000 "T") 3 "T").1.mpr
      ⟨2000, rfl, rfl, by omega⟩,
   (is_armed_iff (initState.arm 0 2000 "T") 3 "T").2⟩

/-! ## C4 -/

/-- An armed, not-killed state with no open rate window, used to show
that consume_action can mutate the window fields on an error path. -/
def c4state : HandsInner :=
  { armed_until := some 100, token := some "T", window_start := none,
    window_actions := 0, killed := false, scope := none }

/-- C4 counterexample: with max_actions = 0, consume_action opens the
rate window (window_start := now) and only then refuses admission, so a
RateLimited error can leave the state mutated.  This refutes the clause
that errors never change the state for every max_actions value. -/
theorem consume_mutation_cex :
    (c4state.consume_action 0 1000 5 "T").1 = Except.error "rate limited"
    ∧ (c4state.consume_action 0 1000 5 "T").2.window_start = some 5
    ∧ c4state.window_start = none :=
  ⟨rfl, rfl, rfl⟩

/-- C4 amended: for every configuration with max_actions ≥ 1, every
error return (killed, not armed, rate limited) leaves the state exactly
unchanged; and on every return the non-window fields (killed, arming,
scope) are untouched, so success mutates only the rate-window fields. -/
theorem consume_action_frame (maxA winMs now : Nat) (tok : String)
    (s : HandsInner) (hmax : 1 ≤ maxA) :
    (∀ e, (s.consume_action maxA winMs now tok).1 = Except.error e →
      (s.consume_action maxA winMs now tok).2 = s)
    ∧ (s.consume_action maxA winMs now tok).2.killed = s.killed
    ∧ (s.consume_action maxA winMs now tok).2.armed_until = s.armed_until
    ∧ (s.consume_action maxA winMs now tok).2.token = s.token
    ∧ (s.consume_action maxA winMs now tok).2.scope = s.scope := by
  unfold HandsInner.consume_action
  by_cases hk : s.killed = true
  · simp [hk]
  · rw [Bool.not_eq_true] at hk
    by_cases ha : s.is_armed now tok = true
    · cases hws : s.window_start with
      | none =>
        have h0 : ¬ (maxA ≤ 0) := by omega
        simp [hk, ha, hws, h0, ge_iff_le]
      | some t0 =>
        by_cases hc : winMs < now - t0
        · have h0 : ¬ (maxA ≤ 0) := by omega
          simp [hk, ha, hws, hc, h0, ge_iff_le]
        · by_cases hr : maxA ≤ s.window_actions
          · simp [hk, ha, hws, hc, hr, ge_iff_le]
          · simp [hk, ha, hws, hc, hr, ge_iff_le]
    · rw [Bool.not_eq_true] at ha
      simp [hk, ha]

/-- Concrete instance of consume_action_frame: with the default
configuration, consuming an action preserves the non-window fields. -/
theorem consume_action_frame_witness :
    (c4state.consume_action 20 10000 5 "T").2.killed = c4state.killed
    ∧ (c4state.consume_action 20 10000 5 "T").2.armed_until = c4state.armed_until
    ∧ (c4state.consume_action 20 10000 5 "T").2.token = c4state.token
    ∧ (c4state.consume_action 20 10000 5 "T").2.scope = c4state.scope :=
  (consume_action_frame 20 10000 5 "T" c4state (by omega)).2

/-! ## C3 -/

/-- is_armed only reads the arming fields, so the other fields are
irrelevant to it. -/
lemma is_armed_window_irrel (now : Nat) (tok : String) (s : HandsInner)
    (ws : Option Nat) (wa : Nat) (k : Bool) (sc : Option ScopeRect) :
    HandsInner.is_armed now tok
        { armed_until := s.armed_until, token := s.token, window_start := ws,
          window_actions := wa, killed := k, scope := sc }
      = HandsInner.is_armed now tok s := rfl

/-- C3: with max_actions = 2 and window_ms = 1000, from an armed,
not-killed state with no open window and a valid unexpired token, two
consume_action calls succeed (opening the window at the first call
time), a third within the same 1000 ms window fails rate limited and
leaves the state unchanged, and a call made more than 1000 ms after the
window start succeeds again with the counter restarted at 1 (the window
resets lazily at that call). -/
theorem rate_limit_scenario (s : HandsInner) (tok : String)
    (t1 t2 t3 t4 : Nat)
    (hk : s.killed = false) (hws : s.window_start = none)
    (ha1 : HandsInner.is_armed t1 tok s = true)
    (ha2 : HandsInner.is_armed t2 tok s = true)
    (ha3 : HandsInner.is_armed t3 tok s = true)
    (ha4 : HandsInner.is_armed t4 tok s = true)
    (hw2 : t2 - t1 ≤ 1000) (hw3 : t3 - t1 ≤ 1000)
    (hw4 : 1000 < t4 - t1) :
    HandsInner.consume_action 2 1000 t1 tok s
      = (Except.ok (), { s with window_start := some t1, window_actions := 1 })
    ∧ HandsInner.consume_action 2 1000 t2 tok
        { s with window_start := some t1, window_actions := 1 }
      = (Except.ok (), { s with window_start := some t1, window_actions := 2 })
    ∧ HandsInner.consume_action 2 1000 t3 tok
        { s with window_start := some t1, window_actions := 2 }
      = (Except.error "rate limited",
         { s with window_start := some t1, window_actions := 2 })
    ∧ HandsInner.consume_action 2 1000 t4 tok
        { s with window_start := some t1, window_actions := 2 }
      = (Except.ok (), { s with window_start := some t4, window_actions := 1 }) := by
  have hnc2 : ¬ (1000 < t2 - t1) := by omega
  have hnc3 : ¬ (1000 < t3 - t1) := by omega
  refine ⟨?_, ?_, ?_, ?_⟩
  · simp [HandsInner.consume_action, hk, hws, ha1]
  · simp [HandsInner.consume_action, hk, is_armed_window_irrel, ha2, hnc2]
  · simp [HandsInner.consume_action, hk, is_armed_window_irrel, ha3, hnc3]
  · simp [HandsInner.consume_action, hk, is_armed_window_irrel, ha4, hw4]

/-- An armed, unexpired, not-killed state used to instantiate the
rate-limit scenario concretely. -/
def c3s : HandsInner :=
  { armed_until := some 2000, token := some "T", window_start := none,
    window_actions := 0, killed := false, scope := none }

/-- Concrete instance of rate_limit_scenario at call times 0, 1, 2 and
1001 with token "T". -/
theorem rate_limit_scenario_witness :
    HandsInner.consume_action 2 1000 0 "T" c3s
      = (Except.ok (), { c3s with window_start := some 0, window_actions := 1 })
    ∧ HandsInner.consume_action 2 1000 1 "T"
        { c3s with window_start := some 0, window_actions := 1 }
      = (Except.ok (), { c3s with window_start := some 0, window_actions := 2 })
    ∧ HandsInner.consume_action 2 1000 2 "T"
        { c3s with window_start := some 0, window_actions := 2 }
      = (Except.error "rate limited",
         { c3s with window_start := some 0, window_actions := 2 })
    ∧ HandsInner.consume_action 2 1000 1001 "T"
        { c3s with window_start := some 0, window_actions := 2 }
      = (Except.ok (), { c3s with window_start := some 1001, window_actions := 1 }) :=
  rate_limit_scenario c3s "T" 0 1 2 1001 rfl rfl (by decide) (by decide)
    (by decide) (by decide) (by decide) (by decide) (by decide)

/-! ## C6 -/

/-- C6: a safety_reset request that passes the origin guard but lacks
the x-seealln-confirm: yes header (case-insensitively) fails with the
distinguished 428 precondition-required status and leaves the state
unchanged (still killed if it was); with the confirmation header it
returns 200 and clears exactly the killed flag, leaving the arming
fields untouched (no re-arm). -/
theorem safety_reset_spec (allowRemote hasXff : Bool) (hdr : Option String)
    (s : HandsInner)
    (hguard : require_local_only allowRemote hasXff = Except.ok ()) :
    (confirm_header hdr = false →
      safety_reset allowRemote hasXff hdr s = (428, s))
    ∧ (confirm_header hdr = true →
      safety_reset allowRemote hasXff hdr s = (200, { s with killed := false })) := by
  constructor
  · intro hc
    simp [safety_reset, hguard, hc]
  · intro hc
    simp [safety_reset, hguard, hc, HandsInner.reset_kill]

/-- Concrete instance of safety_reset_spec on a killed state: a missing
header yields 428 with the state untouched; an uppercase YES header
yields 200 with only the killed flag cleared. -/
theorem safety_reset_spec_witness :
    safety_reset false false none initState.kill = (428, initState.kill)
    ∧ safety_reset false false (some "YES") initState.kill
      = (200, { initState.kill with killed := false }) :=
  ⟨(safety_reset_spec false false none initState.kill rfl).1 rfl,
   (safety_reset_spec false false (some "YES") initState.kill rfl).2 (by decide)⟩

/-! ## C5 -/

/-- C5 counterexample: gen_token is built from a timing source, so a
re-arm whose Instant::elapsed reading coincides with the one that
produced the stored token generates the very same token; the previous
token then still passes is_armed after the new arm, so the generated
token is not always distinct from the stored one and the previous token
is not always invalidated. -/
theorem hands_arm_token_cex :
    (initState.arm 0 30000 (gen_token 0)).token = some (gen_token 0)
    ∧ (hands_arm false false none 10 0 (initState.arm 0 30000 (gen_token 0))).2.token
      = some (gen_token 0)
    ∧ HandsInner.is_armed 20 (gen_token 0)
        (hands_arm false false none 10 0 (initState.arm 0 30000 (gen_token 0))).2
      = true :=
  ⟨rfl, rfl, rfl⟩

/-- C5 amended: a local hands_arm request clamps the requested ttl into
[5000 ms, 300000 ms] (30000 ms when unspecified) and echoes the
effective ttl and the generated token; the token comes from a timing
source, so whenever it differs from the previously stored token the
previous token is invalidated immediately (is_armed on it is false, at
every time); the killed flag is unaffected. -/
theorem hands_arm_spec (ttlMs : Option Nat) (now elapsedNanos t2 : Nat)
    (s : HandsInner) (oldTok : String)
    (hold : oldTok ≠ gen_token elapsedNanos) :
    (hands_arm false false ttlMs now elapsedNanos s).1
      = (200, some (gen_token elapsedNanos, effective_ttl ttlMs))
    ∧ 5000 ≤ effective_ttl ttlMs ∧ effective_ttl ttlMs ≤ 300000
    ∧ (ttlMs = none → effective_ttl ttlMs = 30000)
    ∧ (∀ v, ttlMs = some v → 5000 ≤ v → v ≤ 300000 → effective_ttl ttlMs = v)
    ∧ (hands_arm false false ttlMs now elapsedNanos s).2.killed = s.killed
    ∧ (hands_arm false false ttlMs now elapsedNanos s).2.armed_until
      = some (now + effective_ttl ttlMs)
    ∧ HandsInner.is_armed t2 oldTok
        (hands_arm false false ttlMs now elapsedNanos s).2 = false := by
  refine ⟨rfl, ?_, ?_, ?_, ?_, rfl, rfl, ?_⟩
  · simp [effective_ttl, clampNat]
  · simp only [effective_ttl, clampNat]
    omega
  · intro h
    simp [h, effective_ttl, clampNat]
  · intro v hv h1 h2
    simp only [hv, Option.getD_some, effective_ttl, clampNat]
    omega
  · have : (gen_token elapsedNanos == oldTok) = false := by
      simp [beq_eq_false_iff_ne]
      exact fun h => hold h.symm
    simp [hands_arm, require_local_only, HandsInner.arm,
      HandsInner.is_armed, this]

/-- Concrete instance of hands_arm_spec: requesting 60000 ms yields
ttl 60000 and token t7, and a different old token "x" is invalidated. -/
theorem hands_arm_spec_witness :
    (hands_arm false false (some 60000) 0 7 initState).1
      = (200, some (gen_token 7, effective_ttl (some 60000)))
    ∧ HandsInner.is_armed 5 "x"
        (hands_arm false false (some 60000) 0 7 initState).2 = false :=
  ⟨(hands_arm_spec (some 60000) 0 7 5 initState "x" (by decide)).1,
   (hands_arm_spec (some 60000) 0 7 5 initState "x"
      (by decide)).2.2.2.2.2.2.2⟩

/-! ## C8 -/

/-- C8: a local scope_set request carrying a rectangle with w ≤ 0 or
h ≤ 0 is rejected with status 400 and leaves the state — in particular
the previously stored scope — unchanged; a request with w > 0 and h > 0
stores the rectangle; a null request clears the confinement. -/
theorem scope_set_spec (allowRemote hasXff : Bool) (r : ScopeRect)
    (s : HandsInner)
    (hguard : require_local_only allowRemote hasXff = Except.ok ()) :
    ((r.w ≤ 0 ∨ r.h ≤ 0) →
      scope_set allowRemote hasXff (some r) s = (400, s))
    ∧ (0 < r.w → 0 < r.h →
      scope_set allowRemote hasXff (some r) s = (200, { s with scope := some r }))
    ∧ scope_set allowRemote hasXff none s = (200, { s with scope := none }) := by
  refine ⟨?_, ?_, ?_⟩
  · intro h
    simp [scope_set, hguard, h]
  · intro h1 h2
    have h : ¬ (r.w ≤ 0 ∨ r.h ≤ 0) := by omega
    simp [scope_set, hguard, h, HandsInner.set_scope]
  · simp [scope_set, hguard, HandsInner.set_scope]

/-- A state that already holds a stored scope, to exercise the
invalid-rectangle rejection concretely. -/
def c8state : HandsInner :=
  { initState with scope := some { x := 5, y := 5, w := 5, h := 5 } }

/-- Concrete instance of scope_set_spec: a w = 0 rectangle is rejected
with 400 and the stored scope survives; a valid rectangle is stored;
null clears it. -/
theorem scope_set_spec_witness :
    scope_set false false (some { x := 0, y := 0, w := 0, h := 10 }) c8state
      = (400, c8state)
    ∧ scope_set false false (some { x := 1, y := 2, w := 3, h := 4 }) c8state
      = (200, { c8state with scope := some { x := 1, y := 2, w := 3, h := 4 } })
    ∧ scope_set false false none c8state = (200, { c8state with scope := none }) :=
  ⟨(scope_set_spec false false { x := 0, y := 0, w := 0, h := 10 } c8state rfl).1
      (Or.inl (by decide)),
   (scope_set_spec false false { x := 1, y := 2, w := 3, h := 4 } c8state rfl).2.1
      (by decide) (by decide),
   (scope_set_spec false false { x := 1, y := 2, w := 3, h := 4 } c8state rfl).2.2⟩

/-! ## C7 and C9: clamp_point -/

/-- For an i32-representable corner strictly below i32max and a positive
extent, the saturating upper bound lies between the corner and
corner + extent - 1, so Rust clamp does not panic on that axis. -/
lemma sat_bounds (x w : Int) (h1 : i32min ≤ x) (h2 : x < i32max)
    (h3 : 0 < w) :
    x ≤ satSub (satAdd x w) 1 ∧ satSub (satAdd x w) 1 ≤ x + w - 1 := by
  unfold satSub satAdd satI32 i32min i32max at *
  omega

/-- C7 counterexample: the scope rectangle with y = i32max and positive
extents satisfies the set-time precondition, yet clamp_point panics on
it (the saturating bound arithmetic yields max_y = i32max - 1 < min_y,
and Rust clamp panics when min > max), so clamp_point does not project
every point for every w > 0, h > 0 scope. -/
theorem clamp_point_range_cex :
    (0 : Int) < ScopeRect.w { x := 0, y := i32max, w := 5, h := 5 }
    ∧ (0 : Int) < ScopeRect.h { x := 0, y := i32max, w := 5, h := 5 }
    ∧ ScopeRect.clamp_point { x := 0, y := i32max, w := 5, h := 5 } 3 3 = none := by
  refine ⟨by decide, by decide, ?_⟩
  simp [ScopeRect.clamp_point, clampI32, satSub, satAdd, satI32, i32min, i32max]

/-- C7 amended: for every scope rectangle with i32-representable
fields, w > 0, h > 0, x < i32max and y < i32max, clamp_point projects
every point componentwise into the closed range
[x, x+w-1] times [y, y+h-1] (bounds over the integers; the saturating
arithmetic can only pull the upper bound further down, never out of
that range); in particular scope (100, 100, 10, 10) maps (200, 5) to
(109, 100).  When x or y equals i32max the underlying clamp panics
instead. -/
theorem clamp_point_range (r : ScopeRect) (px py : Int)
    (hx1 : i32min ≤ r.x) (hx2 : r.x < i32max)
    (hy1 : i32min ≤ r.y) (hy2 : r.y < i32max)
    (hw : 0 < r.w) (hh : 0 < r.h) :
    (∃ q, r.clamp_point px py = some q
      ∧ r.x ≤ q.1 ∧ q.1 ≤ r.x + r.w - 1
      ∧ r.y ≤ q.2 ∧ q.2 ≤ r.y + r.h - 1)
    ∧ ScopeRect.clamp_point { x := 100, y := 100, w := 10, h := 10 } 200 5
      = some (109, 100) := by
  obtain ⟨hxa, hxb⟩ := sat_bounds r.x r.w hx1 hx2 hw
  obtain ⟨hya, hyb⟩ := sat_bounds r.y r.h hy1 hy2 hh
  constructor
  · refine ⟨(max r.x (min px (satSub (satAdd r.x r.w) 1)),
            max r.y (min py (satSub (satAdd r.y r.h) 1))),
      ?_, ?_, ?_, ?_, ?_⟩
    · simp [ScopeRect.clamp_point, clampI32, hxa, hya]
    · exact le_max_left _ _
    · simp only [max_le_iff, min_le_iff]
      omega
    · exact le_max_left _ _
    · simp only [max_le_iff, min_le_iff]
      omega
  · decide

/-- Concrete instance of clamp_point_range at the spec scenario scope
(100, 100, 10, 10) and point (200, 5). -/
theorem clamp_point_range_witness :
    (∃ q, ScopeRect.clamp_point { x := 100, y := 100, w := 10, h := 10 } 200 5
        = some q
      ∧ (100 : Int) ≤ q.1 ∧ q.1 ≤ 100 + 10 - 1
      ∧ (100 : Int) ≤ q.2 ∧ q.2 ≤ 100 + 10 - 1)
    ∧ ScopeRect.clamp_point { x := 100, y := 100, w := 10, h := 10 } 200 5
      = some (109, 100) :=
  clamp_point_range { x := 100, y := 100, w := 10, h := 10 } 200 5
    (by decide) (by decide) (by decide) (by decide) (by decide) (by decide)

/-- C9 counterexample: with x = i32max and positive extents (a scope
accepted by the set-time validation) clamp_point does not return a
coordinate pair: the saturating arithmetic gives max_x = i32max - 1,
which is below min_x = i32max, and Rust clamp panics when min > max.
This refutes the claim that clamp_point never panics at the extremes of
the i32 range. -/
theorem clamp_point_total_cex :
    (0 : Int) < ScopeRect.w { x := i32max, y := 0, w := 5, h := 5 }
    ∧ (0 : Int) < ScopeRect.h { x := i32max, y := 0, w := 5, h := 5 }
    ∧ ScopeRect.clamp_point { x := i32max, y := 0, w := 5, h := 5 } 0 0 = none := by
  refine ⟨by decide, by decide, ?_⟩
  simp [ScopeRect.clamp_point, clampI32, satSub, satAdd, satI32, i32min, i32max]

/-- C9 amended: clamp_point is total — it returns a coordinate pair and
the underlying Rust clamp cannot panic — for every scope rectangle with
i32-representable fields, w > 0, h > 0, whose x and y are strictly
below i32max; at x = i32max or y = i32max the computed upper bound
falls below the lower bound and clamp panics. -/
theorem clamp_point_total (r : ScopeRect) (px py : Int)
    (hx1 : i32min ≤ r.x) (hx2 : r.x < i32max)
    (hy1 : i32min ≤ r.y) (hy2 : r.y < i32max)
    (hw : 0 < r.w) (hh : 0 < r.h) :
    (r.clamp_point px py).isSome = true := by
  obtain ⟨hxa, _⟩ := sat_bounds r.x r.w hx1 hx2 hw
  obtain ⟨hya, _⟩ := sat_bounds r.y r.h hy1 hy2 hh
  simp [ScopeRect.clamp_point, clampI32, hxa, hya]

/-- Concrete instance of clamp_point_total on a screen-sized scope and
a point outside it. -/
theorem clamp_point_total_witness :
    (ScopeRect.clamp_point { x := 0, y := 0, w := 640, h := 480 } 1000 (-50)).isSome
      = true :=
  clamp_point_total { x := 0, y := 0, w := 640, h := 480 } 1000 (-50)
    (by decide) (by decide) (by decide) (by decide) (by decide) (by decide)

end Seealln
